import Mathlib

/-!
Shallow embedding of the conversational-assistant repository
(console chatbot `agent.py`, Slack bot `main.py` and `src/slack_bot.py` +
`src/groq_service.py` + `src/config_manager.py`, calendar agent
`src/google_calendar_service.py`).

The per-session history store, the dispatch layer, the Slack mention
handlers, the config bootstrap and the calendar listing are embedded as
executable Lean functions; the external LLM, the Slack transport and the
Google Calendar API are parameters (functions supplied by the caller),
as the spec treats them as opaque collaborators.
-/

set_option autoImplicit false

namespace ChatRepo

/-- Role tag of one conversation message (`user`, `assistant`, `system`). -/
inductive Role where
  | user
  | assistant
  | system
deriving DecidableEq, Repr

/-- One turn of a conversation: a role-tagged text, as kept by
`ChatMessageHistory`. -/
structure Message where
  role : Role
  content : String
deriving DecidableEq, Repr

abbrev SessionId := String

/-- `GroqChatService.message_histories`: a dict from session id to the
ordered message list of its `ChatMessageHistory`, embedded as an
association list. -/
abbrev Store := List (SessionId × List Message)

/-- Dict lookup: `message_histories.get(s)`. -/
def lookupStore : Store → SessionId → Option (List Message)
  | [], _ => none
  | (k, v) :: rest, s => if k = s then some v else lookupStore rest s

/-- Dict write: `message_histories[s] = h` (overwrites the entry for `s`,
keeps every other entry). -/
def setStore : Store → SessionId → List Message → Store
  | [], s, h => [(s, h)]
  | (k, v) :: rest, s, h =>
    if k = s then (s, h) :: rest else (k, v) :: setStore rest s h

/-- The transcript currently stored for a session (empty when the session
has no entry yet). -/
def transcript (st : Store) (s : SessionId) : List Message :=
  (lookupStore st s).getD []

/-- `message_histories.setdefault(session_id, ChatMessageHistory())` from
`GroqChatService.__init__`: return the existing history for the session,
registering a fresh empty one first when absent. -/
def getOrCreate (st : Store) (s : SessionId) : Store × List Message :=
  match lookupStore st s with
  | some h => (st, h)
  | none => (setStore st s [], [])

/-- The fixed system instruction of the prompt template (identical in
`groq_service.py` and `main.py`). -/
def sysInstruction : String := "You are a helpful AI assistant."

def sysMsg : Message := ⟨Role.system, sysInstruction⟩

def userMsg (t : String) : Message := ⟨Role.user, t⟩

def asstMsg (t : String) : Message := ⟨Role.assistant, t⟩

/-- The external LLM collaborator: given the composed prompt (system
instruction, prior history, new user message) it returns a reply
or fails (auth, rate limit, network, malformed response). -/
abbrev LLM := List Message → Except String String

/-- `GroqChatService.invoke(user_input, session_id)`: the
`RunnableWithMessageHistory` chain loads the session's history through the
`setdefault` factory, composes the prompt, calls the model, and only after a
successful run appends the input and output messages to that history
(langchain updates the history in an on-success listener; on an exception
the service logs and re-raises without touching the history). -/
def invoke (llm : LLM) (st : Store) (s : SessionId) (input : String) :
    Store × Except String String :=
  match llm (sysMsg :: (getOrCreate st s).2 ++ [userMsg input]) with
  | Except.ok reply =>
    (setStore (getOrCreate st s).1 s
      ((getOrCreate st s).2 ++ [userMsg input, asstMsg reply]),
     Except.ok reply)
  | Except.error e => ((getOrCreate st s).1, Except.error e)

/-- `main.py` line 47: the history factory of `initialize_chat` is
`lambda session_id: ChatMessageHistory()` — it builds a brand-new, empty
`ChatMessageHistory` on every call, for every session id. -/
def mainHistoryFactory (_s : SessionId) : List Message := []

/-- One invocation of `main.py`'s `chat_chain`: the chain asks the factory
for the session's history (always a fresh empty object), composes the
prompt, calls the model, and on success records the user message and reply
into that ephemeral object, which is returned here as the first component
and retained nowhere. -/
def mainInvoke (llm : LLM) (s : SessionId) (input : String) :
    List Message × Except String String :=
  let hist := mainHistoryFactory s
  match llm (sysMsg :: hist ++ [userMsg input]) with
  | Except.ok reply =>
    (hist ++ [userMsg input, asstMsg reply], Except.ok reply)
  | Except.error e => (hist, Except.error e)

/-! Basic store lemmas. -/

theorem lookupStore_setStore_self (st : Store) (s : SessionId)
    (h : List Message) : lookupStore (setStore st s h) s = some h := by
  induction st with
  | nil => simp [setStore, lookupStore]
  | cons p rest ih =>
    by_cases hk : p.1 = s
    · simp [setStore, hk, lookupStore]
    · simp [setStore, hk, lookupStore, ih]

theorem lookupStore_setStore_other (st : Store) (s k : SessionId)
    (h : List Message) (hne : k ≠ s) :
    lookupStore (setStore st s h) k = lookupStore st k := by
  have hsk : ¬s = k := fun e => hne e.symm
  induction st with
  | nil => simp [setStore, lookupStore, hsk]
  | cons p rest ih =>
    by_cases hk : p.1 = s
    · simp [setStore, hk, lookupStore, hsk]
    · simp only [setStore, if_neg hk, lookupStore]
      by_cases hpk : p.1 = k
      · simp [hpk]
      · simp [hpk, ih]

theorem transcript_setStore_self (st : Store) (s : SessionId)
    (h : List Message) : transcript (setStore st s h) s = h := by
  simp [transcript, lookupStore_setStore_self]

theorem transcript_setStore_other (st : Store) (s k : SessionId)
    (h : List Message) (hne : k ≠ s) :
    transcript (setStore st s h) k = transcript st k := by
  simp [transcript, lookupStore_setStore_other st s k h hne]

theorem getOrCreate_snd (st : Store) (s : SessionId) :
    (getOrCreate st s).2 = transcript st s := by
  unfold getOrCreate transcript
  cases lookupStore st s <;> simp

theorem transcript_getOrCreate (st : Store) (s k : SessionId) :
    transcript (getOrCreate st s).1 k = transcript st k := by
  unfold getOrCreate
  cases hl : lookupStore st s with
  | some h => simp
  | none =>
    by_cases hk : k = s
    · subst hk
      simp [transcript, lookupStore_setStore_self, hl]
    · simp [transcript_setStore_other st s k [] hk]

/-- After a successful `invoke`, the stored transcript is the old one
extended by the user message and the reply. -/
theorem transcript_invoke_ok (llm : LLM) (st : Store) (s : SessionId)
    (input r : String)
    (hok : (invoke llm st s input).2 = Except.ok r) :
    transcript (invoke llm st s input).1 s
      = transcript st s ++ [userMsg input, asstMsg r] := by
  unfold invoke at hok ⊢
  cases hc : llm (sysMsg :: (getOrCreate st s).2 ++ [userMsg input]) with
  | ok reply =>
    rw [hc] at hok
    have hr : reply = r := by simpa using hok
    show transcript
        (setStore (getOrCreate st s).1 s
          ((getOrCreate st s).2 ++ [userMsg input, asstMsg reply])) s
      = transcript st s ++ [userMsg input, asstMsg r]
    rw [hr, transcript_setStore_self, getOrCreate_snd]
  | error e2 => rw [hc] at hok; simp at hok

/-- A failed `invoke` leaves every stored transcript unchanged. -/
theorem transcript_invoke_error (llm : LLM) (st : Store) (s k : SessionId)
    (input e : String)
    (herr : (invoke llm st s input).2 = Except.error e) :
    transcript (invoke llm st s input).1 k = transcript st k := by
  unfold invoke at herr ⊢
  cases hc : llm (sysMsg :: (getOrCreate st s).2 ++ [userMsg input]) with
  | ok reply => rw [hc] at herr; simp at herr
  | error e2 =>
    show transcript (getOrCreate st s).1 k = transcript st k
    exact transcript_getOrCreate st s k

/-- An LLM that always replies, used in concrete witnesses. -/
def okLLM : LLM := fun _ => Except.ok "hi there"

/-- An LLM that always fails, used in concrete witnesses. -/
def failLLM : LLM := fun _ => Except.error "boom"

/-! Operation sequences performed under one session: a dispatcher call
(`GroqChatService.invoke` with some external outcome) or a bare history
append (`ChatMessageHistory.add_message` on the stored transcript). -/

inductive SessionOp where
  | invokeOp (input : String) (result : Except String String)
  | appendOp (m : Message)

/-- Appending one message to a session's stored history, creating the
entry when absent (the spec's `append(session_id, message)` over the
`message_histories` dict). -/
def appendMsg (st : Store) (s : SessionId) (m : Message) : Store :=
  setStore st s (transcript st s ++ [m])

def applyOp (st : Store) (s : SessionId) : SessionOp → Store
  | SessionOp.invokeOp input r => (invoke (fun _ => r) st s input).1
  | SessionOp.appendOp m => appendMsg st s m

def applyOps (st : Store) (s : SessionId) : List SessionOp → Store
  | [] => st
  | op :: rest => applyOps (applyOp st s op) s rest

theorem transcript_invoke_other (llm : LLM) (st : Store) (a b : SessionId)
    (input : String) (hne : b ≠ a) :
    transcript (invoke llm st a input).1 b = transcript st b := by
  unfold invoke
  cases hc : llm (sysMsg :: (getOrCreate st a).2 ++ [userMsg input]) with
  | ok reply =>
    show transcript
        (setStore (getOrCreate st a).1 a
          ((getOrCreate st a).2 ++ [userMsg input, asstMsg reply])) b
      = transcript st b
    rw [transcript_setStore_other _ _ _ _ hne, transcript_getOrCreate]
  | error e =>
    show transcript (getOrCreate st a).1 b = transcript st b
    exact transcript_getOrCreate st a b

theorem transcript_applyOp_other (st : Store) (a b : SessionId)
    (op : SessionOp) (hne : b ≠ a) :
    transcript (applyOp st a op) b = transcript st b := by
  cases op with
  | invokeOp input r => exact transcript_invoke_other _ st a b input hne
  | appendOp m =>
    show transcript (setStore st a (transcript st a ++ [m])) b = transcript st b
    exact transcript_setStore_other st a b _ hne

/-! Sequences of successful dispatcher calls, for the transcript-shape
property. `runCalls` drives `invoke` with an LLM that always replies
(`f` computes the reply from the composed prompt). -/

def runCalls (f : List Message → String) (st : Store) (s : SessionId) :
    List String → Store
  | [] => st
  | input :: rest =>
    runCalls f (invoke (fun p => Except.ok (f p)) st s input).1 s rest

/-- The user/assistant pairs a run of successful calls adds after the
prior history `hist`. -/
def pairsFor (f : List Message → String) (hist : List Message) :
    List String → List Message
  | [] => []
  | input :: rest =>
    userMsg input :: asstMsg (f (sysMsg :: hist ++ [userMsg input])) ::
      pairsFor f
        (hist ++ [userMsg input,
                  asstMsg (f (sysMsg :: hist ++ [userMsg input]))]) rest

/-- Checks that a transcript is exactly the alternating
user-message/assistant-reply pairs for the given inputs, in call order. -/
def isUserAsstPairs : List String → List Message → Bool
  | [], [] => true
  | input :: rest, m1 :: m2 :: ms =>
    m1 == userMsg input && m2.role == Role.assistant && isUserAsstPairs rest ms
  | _, _ => false

theorem transcript_runCalls (f : List Message → String) (st : Store)
    (s : SessionId) (inputs : List String) :
    transcript (runCalls f st s inputs) s
      = transcript st s ++ pairsFor f (transcript st s) inputs := by
  induction inputs generalizing st with
  | nil => simp [runCalls, pairsFor]
  | cons input rest ih =>
    show transcript
        (runCalls f (invoke (fun p => Except.ok (f p)) st s input).1 s rest) s
      = _
    rw [ih]
    have hok : (invoke (fun p => Except.ok (f p)) st s input).2
        = Except.ok (f (sysMsg :: (getOrCreate st s).2 ++ [userMsg input])) :=
      rfl
    rw [transcript_invoke_ok _ st s input _ hok, getOrCreate_snd]
    simp [pairsFor]

theorem length_pairsFor (f : List Message → String) (hist : List Message)
    (inputs : List String) :
    (pairsFor f hist inputs).length = 2 * inputs.length := by
  induction inputs generalizing hist with
  | nil => rfl
  | cons input rest ih => simp [pairsFor, ih]; ring

theorem isUserAsstPairs_pairsFor (f : List Message → String)
    (hist : List Message) (inputs : List String) :
    isUserAsstPairs inputs (pairsFor f hist inputs) = true := by
  induction inputs generalizing hist with
  | nil => rfl
  | cons input rest ih => simp [pairsFor, isUserAsstPairs, ih, asstMsg]

/-! ### Claim theorems C1 – C4 -/

/-- C1 (counterexample): in the `main.py` variant the history factory
builds a fresh `ChatMessageHistory` per call, so the second invocation of
`chat_chain` on session `"S"` observes the empty history, not the messages
the first successful invocation recorded. -/
theorem c1_mainpy_history_not_shared :
    (mainInvoke okLLM "S" "hello").2 = Except.ok "hi there"
    ∧ (mainInvoke okLLM "S" "hello").1
        = [userMsg "hello", asstMsg "hi there"]
    ∧ mainHistoryFactory "S" = []
    ∧ userMsg "hello" ∉ mainHistoryFactory "S" := by
  refine ⟨rfl, rfl, rfl, ?_⟩
  simp [mainHistoryFactory]

/-- C1 (amended): in the `GroqChatService` variant, after a successful
dispatcher call the history the next invocation obtains through the
`setdefault` factory is the previous transcript extended by the recorded
user message and reply — so the second call observes the first call's
messages; in the `main.py` variant the factory yields a fresh empty
history on every call. -/
theorem c1_same_session_shares_transcript (llm : LLM) (st : Store)
    (s : SessionId) (input r : String)
    (hok : (invoke llm st s input).2 = Except.ok r) :
    (getOrCreate (invoke llm st s input).1 s).2
      = transcript st s ++ [userMsg input, asstMsg r]
    ∧ userMsg input ∈ (getOrCreate (invoke llm st s input).1 s).2
    ∧ asstMsg r ∈ (getOrCreate (invoke llm st s input).1 s).2
    ∧ mainHistoryFactory s = [] := by
  have h := transcript_invoke_ok llm st s input r hok
  rw [getOrCreate_snd, h]
  refine ⟨rfl, ?_, ?_, rfl⟩ <;> simp

/-- Witness for C1's amended theorem at a concrete call. -/
theorem c1_same_session_shares_transcript_witness :
    (getOrCreate (invoke okLLM [] "S" "hello").1 "S").2
      = transcript ([] : Store) "S" ++ [userMsg "hello", asstMsg "hi there"]
    ∧ userMsg "hello" ∈ (getOrCreate (invoke okLLM [] "S" "hello").1 "S").2
    ∧ asstMsg "hi there" ∈ (getOrCreate (invoke okLLM [] "S" "hello").1 "S").2
    ∧ mainHistoryFactory "S" = [] :=
  c1_same_session_shares_transcript okLLM [] "S" "hello" "hi there" rfl

/-- C2: if the external LLM call fails, `GroqChatService.invoke` re-raises
and the stored transcript of the session is exactly what it was before the
call — neither the user message nor any reply is recorded. -/
theorem c2_no_partial_mutation_on_failure (llm : LLM) (st : Store)
    (s : SessionId) (input e : String)
    (herr : (invoke llm st s input).2 = Except.error e) :
    transcript (invoke llm st s input).1 s = transcript st s :=
  transcript_invoke_error llm st s s input e herr

/-- Witness for C2 at a concrete failing call. -/
theorem c2_no_partial_mutation_on_failure_witness :
    transcript (invoke failLLM [("S", [userMsg "old"])] "S" "hello").1 "S"
      = transcript [("S", [userMsg "old"])] "S" :=
  c2_no_partial_mutation_on_failure failLLM [("S", [userMsg "old"])] "S"
    "hello" "boom" rfl

/-- C3: any sequence of dispatcher calls and appends performed under
session `a` leaves the transcript stored for any other session `b`
unchanged, and no message appended under `a` shows up in `b`'s
transcript beyond what was already there. -/
theorem c3_cross_session_frame (ops : List SessionOp) (st : Store)
    (a b : SessionId) (hne : a ≠ b) :
    transcript (applyOps st a ops) b = transcript st b
    ∧ ∀ m : Message,
        m ∈ transcript (applyOps st a ops) b → m ∈ transcript st b := by
  have key : transcript (applyOps st a ops) b = transcript st b := by
    induction ops generalizing st with
    | nil => rfl
    | cons op rest ih =>
      show transcript (applyOps (applyOp st a op) a rest) b = transcript st b
      rw [ih (applyOp st a op),
        transcript_applyOp_other st a b op (Ne.symm hne)]
  exact ⟨key, fun m hm => key ▸ hm⟩

/-- Witness for C3 at a concrete operation sequence. -/
theorem c3_cross_session_frame_witness :
    transcript
        (applyOps [("b", [userMsg "old"])] "a"
          [SessionOp.invokeOp "hello" (Except.ok "hi"),
           SessionOp.appendOp (userMsg "x")]) "b"
      = transcript [("b", [userMsg "old"])] "b"
    ∧ ∀ m : Message,
        m ∈ transcript
            (applyOps [("b", [userMsg "old"])] "a"
              [SessionOp.invokeOp "hello" (Except.ok "hi"),
               SessionOp.appendOp (userMsg "x")]) "b" →
        m ∈ transcript [("b", [userMsg "old"])] "b" :=
  c3_cross_session_frame _ _ "a" "b" (by decide)

/-- C4: starting from an empty transcript, after `N` successful dispatcher
calls the stored transcript has length exactly `2 * N` and consists of
alternating user-message/assistant-reply pairs in call order. -/
theorem c4_transcript_length_pairs (f : List Message → String) (st : Store)
    (s : SessionId) (inputs : List String)
    (h0 : transcript st s = []) :
    (transcript (runCalls f st s inputs) s).length = 2 * inputs.length
    ∧ isUserAsstPairs inputs (transcript (runCalls f st s inputs) s)
        = true := by
  have key := transcript_runCalls f st s inputs
  rw [h0] at key
  rw [key]
  simpa using ⟨length_pairsFor f [] inputs, isUserAsstPairs_pairsFor f [] inputs⟩

/-- Witness for C4 at two concrete successful calls. -/
theorem c4_transcript_length_pairs_witness :
    (transcript (runCalls (fun _ => "re") [] "S" ["a", "b"]) "S").length
      = 2 * (["a", "b"] : List String).length
    ∧ isUserAsstPairs ["a", "b"]
        (transcript (runCalls (fun _ => "re") [] "S" ["a", "b"]) "S")
      = true :=
  c4_transcript_length_pairs (fun _ => "re") [] "S" ["a", "b"] rfl

/-! ### Python string primitives used by the adapters -/

/-- The whitespace characters `str.strip()` removes (space, tab, newline,
carriage return, vertical tab, form feed). -/
def isPySpace (c : Char) : Bool :=
  c = ' ' || c = Char.ofNat 9 || c = Char.ofNat 10 || c = Char.ofNat 13
    || c = Char.ofNat 11 || c = Char.ofNat 12

/-- `str.strip()`: drop leading and trailing whitespace. -/
def pyStrip (s : String) : String :=
  String.mk
    (((s.toList.dropWhile isPySpace).reverse.dropWhile isPySpace).reverse)

/-- Left-to-right, non-overlapping removal of a non-empty pattern, the
semantics of Python's `text.replace(pat, "")`. The fuel argument (always
started at the text's length) only makes the recursion structural; one
character of text is consumed per step, so the fuel never runs out. -/
def removeOccAux (pat : List Char) : Nat → List Char → List Char
  | 0, l => l
  | _ + 1, [] => []
  | fuel + 1, c :: rest =>
    if pat.isPrefixOf (c :: rest) && decide (0 < pat.length) then
      removeOccAux pat fuel ((c :: rest).drop pat.length)
    else c :: removeOccAux pat fuel rest

/-- `text.replace(pat, "")` for the non-empty mention-token patterns the
handlers use. -/
def pyRemoveStr (pat text : String) : String :=
  String.mk (removeOccAux pat.toList text.toList.length text.toList)

/-- `str.lower()` restricted to ASCII letters, all this program compares. -/
def lowerChar (c : Char) : Char :=
  if 'A' ≤ c ∧ c ≤ 'Z' then Char.ofNat (c.toNat + 32) else c

def pyLower (s : String) : String := String.mk (s.toList.map lowerChar)

/-- An apostrophe, kept out of string literals. -/
def apos : String := String.mk [Char.ofNat 39]

/-! ### Slack mention handlers (`main.py` and `src/slack_bot.py`) -/

/-- The fields of the `event` object both handlers read. `text` defaults
to the empty string when absent (as `event_data.get("text", "")` does);
`channel`, `thread_ts` and `ts` are `none` when the key is absent. -/
structure SlackEvent where
  text : String
  channel : Option String
  threadTs : Option String
  ts : Option String
deriving DecidableEq, Repr

/-- An app-mention request body: the event plus the bot user id resolved
from `body["authorizations"][0]["user_id"]` (`none` when the
authorizations list is missing or empty). -/
structure MentionBody where
  event : SlackEvent
  botUserId : Option String
deriving DecidableEq, Repr

/-- What a handler decides to do with a mention: short-circuit with a
canned reply without calling the chat service, dispatch the cleaned query
under a session id, or fall into the exception path and apologise. -/
inductive HandlerAction where
  | canned (msg : String)
  | dispatch (query : String) (sessionId : SessionId)
  | errorReply
deriving DecidableEq, Repr

/-- The bot's mention token, `f"<@{bot_user_id}>"`. -/
def mentionToken (bid : String) : String := "<@" ++ bid ++ ">"

/-- `user_query.replace(f"<@{bot_user_id}>", "").strip()`. -/
def cleanQueryMain (text bid : String) : String :=
  pyStrip (pyRemoveStr (mentionToken bid) text)

/-- `src/slack_bot.py`'s cleaning: when the bot id could not be resolved
it only strips whitespace, otherwise it removes the mention token and
strips. -/
def cleanQuerySlackBot (text : String) (bid : Option String) : String :=
  match bid with
  | none => pyStrip text
  | some b2 => cleanQueryMain text b2

def cannedEmptyMain : String :=
  "It looks like you mentioned me but didn" ++ apos ++ "t ask anything!"

def cannedEmptySlackBot : String :=
  cannedEmptyMain ++ " Try asking a question."

def errMsgMain : String :=
  "Sorry, I encountered an error while processing your request."

def errMsgSlackBot : String :=
  "Sorry, I encountered an internal error while processing your request. "
    ++ "Please try again later."

/-- `main.py handle_app_mention_events`: a missing bot user id raises a
`KeyError`/`IndexError` that the outer `except` turns into the apology
reply; an empty cleaned query short-circuits with the canned message;
otherwise `body["event"]["channel"]` is evaluated (eagerly, as the default
argument of `.get`, raising when absent) and the session id is
`thread_ts` when present, else the channel. -/
def mainHandle (b : MentionBody) : HandlerAction :=
  match b.botUserId with
  | none => HandlerAction.errorReply
  | some bid =>
    if cleanQueryMain b.event.text bid = "" then
      HandlerAction.canned cannedEmptyMain
    else
      match b.event.channel with
      | none => HandlerAction.errorReply
      | some c =>
        match b.event.threadTs with
        | some t => HandlerAction.dispatch (cleanQueryMain b.event.text bid) t
        | none => HandlerAction.dispatch (cleanQueryMain b.event.text bid) c

/-- Session-id derivation of `SlackBot._handle_app_mention`:
`event_data.get("thread_ts", event_data.get("channel", "default_session"))`,
then the `if not session_id` fallback replacing an empty-string id by
`"unknown_session_" + event_data.get("ts", "fallback_ts")`. -/
def slackBotSessionId (e : SlackEvent) : SessionId :=
  let sid0 :=
    match e.threadTs with
    | some t => t
    | none =>
      match e.channel with
      | some c => c
      | none => "default_session"
  if sid0 = "" then "unknown_session_" ++ e.ts.getD "fallback_ts" else sid0

/-- `SlackBot._handle_app_mention`: strips (with the no-bot-id fallback),
short-circuits on an empty cleaned query, otherwise dispatches the cleaned
query to the chat service under the derived session id. -/
def slackBotHandle (b : MentionBody) : HandlerAction :=
  if cleanQuerySlackBot b.event.text b.botUserId = "" then
    HandlerAction.canned cannedEmptySlackBot
  else
    HandlerAction.dispatch (cleanQuerySlackBot b.event.text b.botUserId)
      (slackBotSessionId b.event)

/-- Running a handler's decision against the chat state: a canned or
apology reply never touches the store; a dispatch runs the dispatcher and,
when it raises, the handler's `except` substitutes the apology text. -/
def runAction (llm : LLM) (st : Store) (errText : String) :
    HandlerAction → Store × String
  | HandlerAction.canned m => (st, m)
  | HandlerAction.dispatch q sid =>
    match invoke llm st sid q with
    | (st2, Except.ok r) => (st2, r)
    | (st2, Except.error _) => (st2, errText)
  | HandlerAction.errorReply => (st, errText)

/-- Full effect of one `main.py` mention event on the history store. -/
def mainEffect (llm : LLM) (st : Store) (b : MentionBody) : Store × String :=
  runAction llm st errMsgMain (mainHandle b)

/-- Full effect of one `SlackBot` mention event on the history store. -/
def slackBotEffect (llm : LLM) (st : Store) (b : MentionBody) :
    Store × String :=
  runAction llm st errMsgSlackBot (slackBotHandle b)

/-! ### Console loop of `agent.py` -/

/-- What `agent.py`'s `main` loop does with one line of input. -/
inductive ConsoleStep where
  | exitLoop
  | dispatchLine (text : String)
deriving DecidableEq, Repr

/-- `if user_input.lower() == 'quit': break`, else the line is sent to the
agent chain. -/
def consoleStep (line : String) : ConsoleStep :=
  if pyLower line = "quit" then ConsoleStep.exitLoop
  else ConsoleStep.dispatchLine line

/-! ### Claim theorems C5 – C8 -/

/-- C5: a mention whose text is empty after stripping the bot mention
token and trimming whitespace is answered with the canned message in both
variants; the store is returned untouched and the reply does not depend on
the LLM, which is therefore never invoked. -/
theorem c5_empty_mention_shortcircuit (b : MentionBody) (bid : String)
    (hbid : b.botUserId = some bid)
    (hempty : cleanQueryMain b.event.text bid = "") :
    mainHandle b = HandlerAction.canned cannedEmptyMain
    ∧ slackBotHandle b = HandlerAction.canned cannedEmptySlackBot
    ∧ ∀ (llm : LLM) (st : Store),
        mainEffect llm st b = (st, cannedEmptyMain)
        ∧ slackBotEffect llm st b = (st, cannedEmptySlackBot) := by
  have h1 : mainHandle b = HandlerAction.canned cannedEmptyMain := by
    unfold mainHandle
    rw [hbid]
    simp [hempty]
  have h2 : slackBotHandle b = HandlerAction.canned cannedEmptySlackBot := by
    unfold slackBotHandle
    rw [hbid]
    simp [cleanQuerySlackBot, hempty]
  refine ⟨h1, h2, fun llm st => ⟨?_, ?_⟩⟩
  · simp [mainEffect, h1, runAction]
  · simp [slackBotEffect, h2, runAction]

/-- A mention of the bot with nothing after the token, for the C5
witness. -/
def emptyMentionBody : MentionBody :=
  { event := { text := "<@U123>   ", channel := some "C1",
               threadTs := none, ts := some "1.0" },
    botUserId := some "U123" }

/-- Witness for C5 at a concrete whitespace-only mention. -/
theorem c5_empty_mention_shortcircuit_witness :
    mainHandle emptyMentionBody = HandlerAction.canned cannedEmptyMain
    ∧ slackBotHandle emptyMentionBody
        = HandlerAction.canned cannedEmptySlackBot
    ∧ ∀ (llm : LLM) (st : Store),
        mainEffect llm st emptyMentionBody = (st, cannedEmptyMain)
        ∧ slackBotEffect llm st emptyMentionBody
            = (st, cannedEmptySlackBot) :=
  c5_empty_mention_shortcircuit emptyMentionBody "U123" rfl (by decide)

/-- C6: for a mention with a resolved bot id, a non-empty cleaned query, a
non-empty channel id and a (present implies non-empty) `thread_ts`, both
handlers dispatch under session id `thread_ts` when present and the
channel id otherwise. -/
theorem c6_session_id_derivation (b : MentionBody) (bid c : String)
    (hbid : b.botUserId = some bid)
    (hch : b.event.channel = some c) (hcne : c ≠ "")
    (hth : ∀ t, b.event.threadTs = some t → t ≠ "")
    (hq : cleanQueryMain b.event.text bid ≠ "") :
    mainHandle b
      = HandlerAction.dispatch (cleanQueryMain b.event.text bid)
          (b.event.threadTs.getD c)
    ∧ slackBotHandle b
      = HandlerAction.dispatch (cleanQueryMain b.event.text bid)
          (b.event.threadTs.getD c) := by
  constructor
  · unfold mainHandle
    rw [hbid]
    simp only [if_neg hq, hch]
    cases hts : b.event.threadTs with
    | some t => simp
    | none => simp
  · unfold slackBotHandle slackBotSessionId
    rw [hbid]
    simp only [cleanQuerySlackBot]
    rw [if_neg hq]
    cases hts : b.event.threadTs with
    | some t =>
      have htne := hth t hts
      simp [htne]
    | none =>
      rw [hch]
      simp [hcne]

/-- A threaded mention, for the C6 witness. -/
def threadedMentionBody : MentionBody :=
  { event := { text := "<@U1> hi", channel := some "C9",
               threadTs := some "170.1", ts := some "170.2" },
    botUserId := some "U1" }

/-- Witness for C6 at a concrete threaded mention. -/
theorem c6_session_id_derivation_witness :
    mainHandle threadedMentionBody
      = HandlerAction.dispatch
          (cleanQueryMain threadedMentionBody.event.text "U1")
          (threadedMentionBody.event.threadTs.getD "C9")
    ∧ slackBotHandle threadedMentionBody
      = HandlerAction.dispatch
          (cleanQueryMain threadedMentionBody.event.text "U1")
          (threadedMentionBody.event.threadTs.getD "C9") :=
  c6_session_id_derivation threadedMentionBody "U1" "C9" rfl rfl
    (by decide)
    (fun t h => by injection h with h2; subst h2; decide)
    (by decide)

/-- The spec's example query, with its apostrophe assembled explicitly. -/
def exampleQuery : String := "what" ++ apos ++ "s my schedule"

/-- The spec's example mention event. -/
def exampleMentionBody : MentionBody :=
  { event := { text := "<@U123> " ++ exampleQuery, channel := some "C1",
               threadTs := none, ts := some "123.45" },
    botUserId := some "U123" }

/-- C7: stripping the mention token: the spec's example text with bot id
`U123` cleans to the example query and both handlers dispatch exactly that
query; every occurrence of the token is removed (two-token input) and the
surrounding whitespace is trimmed. -/
theorem c7_mention_stripping :
    cleanQueryMain ("<@U123> " ++ exampleQuery) "U123" = exampleQuery
    ∧ mainHandle exampleMentionBody
        = HandlerAction.dispatch exampleQuery "C1"
    ∧ slackBotHandle exampleMentionBody
        = HandlerAction.dispatch exampleQuery "C1"
    ∧ cleanQueryMain "a <@U9> b <@U9> c" "U9" = "a  b  c"
    ∧ cleanQueryMain "  <@U7>  hello  " "U7" = "hello" := by
  refine ⟨?_, ?_, ?_, ?_, ?_⟩ <;> decide

/-- C8 (counterexample): the console loop of `agent.py` dispatches the
literal line `"exit"` to the model instead of terminating; only inputs
whose lowercase form is `"quit"` (so also `"QUIT"`) terminate. -/
theorem c8_exit_token_dispatches :
    consoleStep "exit" = ConsoleStep.dispatchLine "exit"
    ∧ consoleStep "exit" ≠ ConsoleStep.exitLoop
    ∧ consoleStep "quit" = ConsoleStep.exitLoop
    ∧ consoleStep "QUIT" = ConsoleStep.exitLoop := by decide

/-- C8 (amended): a console line terminates the loop exactly when its
lowercase form is the token `"quit"`; every other line — including
`"exit"` — is dispatched unchanged. -/
theorem c8_quit_is_sole_exit (line : String) :
    (consoleStep line = ConsoleStep.exitLoop ↔ pyLower line = "quit")
    ∧ (pyLower line ≠ "quit" →
        consoleStep line = ConsoleStep.dispatchLine line) := by
  unfold consoleStep
  by_cases h : pyLower line = "quit" <;> simp [h]

/-- Witness for C8's amended theorem at a concrete line. -/
theorem c8_quit_is_sole_exit_witness :
    (consoleStep "Exit" = ConsoleStep.exitLoop ↔ pyLower "Exit" = "quit")
    ∧ (pyLower "Exit" ≠ "quit" →
        consoleStep "Exit" = ConsoleStep.dispatchLine "Exit") :=
  c8_quit_is_sole_exit "Exit"

/-! ### Config bootstrap (`src/config_manager.py`, `main.py`) -/

/-- The environment values the two startups read. -/
structure Env where
  groqApiKey : Option String
  slackBotToken : Option String
  slackAppToken : Option String
  slackTestChannelId : Option String
deriving DecidableEq, Repr

/-- The state of `config.yaml`: absent, not valid YAML, or parsed with or
without a `model.name` entry. -/
inductive ConfigFile where
  | missing
  | unparsable
  | parsed (modelName : Option String)
deriving DecidableEq, Repr

/-- How a startup run ends: reaches the blocking transport loop, or the
process exits with the given status code. -/
inductive StartupResult where
  | running
  | exitCode (code : Nat)
deriving DecidableEq, Repr

/-- Startup of `main.py`. At import, `initialize_chat` loads `config.yaml`
(`load_config` swallows any error into `None`, which becomes a
`ValueError` caught at module level and answered with `exit(1)`); a parsed
config without `model.name` raises an uncaught `KeyError` and a missing
`GROQ_API_KEY` makes the Groq client constructor raise — both uncaught, so
the interpreter exits 1. `main()` then checks `SLACK_APP_TOKEN` and
`SLACK_BOT_TOKEN`; when one is missing it prints a message and `return`s,
so the process ends with status 0. -/
def mainStartup (env : Env) (cfg : ConfigFile) : StartupResult :=
  match cfg with
  | ConfigFile.missing => StartupResult.exitCode 1
  | ConfigFile.unparsable => StartupResult.exitCode 1
  | ConfigFile.parsed none => StartupResult.exitCode 1
  | ConfigFile.parsed (some _) =>
    match env.groqApiKey with
    | none => StartupResult.exitCode 1
    | some _ =>
      match env.slackAppToken with
      | none => StartupResult.exitCode 0
      | some _ =>
        match env.slackBotToken with
        | none => StartupResult.exitCode 0
        | some _ => StartupResult.running

/-- `ConfigManager.__init__`: loads the YAML, re-raising load and parse
errors, then `_validate_critical_configs` raises `ValueError` for a
missing `GROQ_API_KEY`, `SLACK_BOT_TOKEN`, `SLACK_APP_TOKEN` or
`model.name`, in that order. The result is the raised error (no caller in
the repository catches it, so it aborts startup) or success. -/
def configManagerInit (env : Env) (cfg : ConfigFile) : Except String Unit :=
  match cfg with
  | ConfigFile.missing => Except.error "FileNotFoundError"
  | ConfigFile.unparsable => Except.error "YAMLError"
  | ConfigFile.parsed modelName =>
    match env.groqApiKey with
    | none => Except.error "GROQ_API_KEY is not set."
    | some _ =>
      match env.slackBotToken with
      | none => Except.error "SLACK_BOT_TOKEN is not set."
      | some _ =>
        match env.slackAppToken with
        | none => Except.error "SLACK_APP_TOKEN is not set."
        | some _ =>
          match modelName with
          | none =>
            Except.error "Model name configuration is missing or invalid."
          | some _ => Except.ok ()

/-- An environment missing only the app-level Slack token. -/
def missingAppTokenEnv : Env :=
  { groqApiKey := some "gsk-1", slackBotToken := some "xoxb-1",
    slackAppToken := none, slackTestChannelId := none }

/-- An environment with every required value present. -/
def fullEnv : Env :=
  { groqApiKey := some "gsk-1", slackBotToken := some "xoxb-1",
    slackAppToken := some "xapp-1", slackTestChannelId := none }

/-- C9 (counterexample): with a valid config and LLM key but no
`SLACK_APP_TOKEN`, `main.py` prints a message and returns from `main()`,
so the process exits with status 0, not a non-zero status. -/
theorem c9_missing_app_token_exits_zero :
    missingAppTokenEnv.slackAppToken = none
    ∧ mainStartup missingAppTokenEnv (ConfigFile.parsed (some "llama3"))
        = StartupResult.exitCode 0
    ∧ mainStartup missingAppTokenEnv (ConfigFile.parsed (some "llama3"))
        ≠ StartupResult.running := by decide

/-- C9 (amended): startup is all-or-nothing — the transport loop is
reached only with a parsed config, a model name and all required tokens,
and `ConfigManager` accepts exactly that condition; a missing or
unparsable config file, a missing model name or a missing `GROQ_API_KEY`
exits non-zero; but a missing Slack token in `main.py` fails fast with an
error message and exit status 0 rather than non-zero. -/
theorem c9_fail_fast_amended (env : Env) (cfg : ConfigFile) :
    (mainStartup env cfg = StartupResult.running ↔
      ((∃ m, cfg = ConfigFile.parsed (some m)) ∧ env.groqApiKey ≠ none
        ∧ env.slackAppToken ≠ none ∧ env.slackBotToken ≠ none))
    ∧ ((cfg = ConfigFile.missing ∨ cfg = ConfigFile.unparsable
        ∨ cfg = ConfigFile.parsed none ∨ env.groqApiKey = none) →
        mainStartup env cfg = StartupResult.exitCode 1)
    ∧ ((∃ m, cfg = ConfigFile.parsed (some m)) → env.groqApiKey ≠ none →
        (env.slackAppToken = none ∨ env.slackBotToken = none) →
        mainStartup env cfg = StartupResult.exitCode 0)
    ∧ ((configManagerInit env cfg).isOk = true ↔
      ((∃ m, cfg = ConfigFile.parsed (some m)) ∧ env.groqApiKey ≠ none
        ∧ env.slackBotToken ≠ none ∧ env.slackAppToken ≠ none)) := by
  obtain ⟨g, bt, ap, tc⟩ := env
  cases cfg with
  | missing =>
    cases g <;> cases bt <;> cases ap <;>
      simp [mainStartup, configManagerInit, Except.isOk, Except.toBool]
  | unparsable =>
    cases g <;> cases bt <;> cases ap <;>
      simp [mainStartup, configManagerInit, Except.isOk, Except.toBool]
  | parsed m =>
    cases m <;> cases g <;> cases bt <;> cases ap <;>
      simp [mainStartup, configManagerInit, Except.isOk, Except.toBool]

/-- Witness for C9's amended theorem at a concrete environment. -/
theorem c9_fail_fast_amended_witness :
    (mainStartup fullEnv (ConfigFile.parsed (some "llama3"))
        = StartupResult.running ↔
      ((∃ m, ConfigFile.parsed (some "llama3") = ConfigFile.parsed (some m))
        ∧ fullEnv.groqApiKey ≠ none
        ∧ fullEnv.slackAppToken ≠ none ∧ fullEnv.slackBotToken ≠ none))
    ∧ ((ConfigFile.parsed (some "llama3") = ConfigFile.missing
        ∨ ConfigFile.parsed (some "llama3") = ConfigFile.unparsable
        ∨ ConfigFile.parsed (some "llama3") = ConfigFile.parsed none
        ∨ fullEnv.groqApiKey = none) →
        mainStartup fullEnv (ConfigFile.parsed (some "llama3"))
          = StartupResult.exitCode 1)
    ∧ ((∃ m, ConfigFile.parsed (some "llama3") = ConfigFile.parsed (some m))
        → fullEnv.groqApiKey ≠ none →
        (fullEnv.slackAppToken = none ∨ fullEnv.slackBotToken = none) →
        mainStartup fullEnv (ConfigFile.parsed (some "llama3"))
          = StartupResult.exitCode 0)
    ∧ ((configManagerInit fullEnv (ConfigFile.parsed (some "llama3"))).isOk
          = true ↔
      ((∃ m, ConfigFile.parsed (some "llama3") = ConfigFile.parsed (some m))
        ∧ fullEnv.groqApiKey ≠ none
        ∧ fullEnv.slackBotToken ≠ none ∧ fullEnv.slackAppToken ≠ none)) :=
  c9_fail_fast_amended fullEnv (ConfigFile.parsed (some "llama3"))

/-! ### Calendar listing (`agent.py get_calendar_events`,
`GoogleCalendarService.list_events`) -/

/-- One event as the code consumes it: the collaborator-formatted start
string and the summary. -/
structure CalEvent where
  startStr : String
  summary : String
deriving DecidableEq, Repr

/-- A newline, kept out of string literals. -/
def nl : String := String.mk [Char.ofNat 10]

/-- One output line of `get_calendar_events`:
`f"- {start_time.strftime(...)} - {event['summary']}\n"`. -/
def renderAgentLine (e : CalEvent) : String :=
  "- " ++ e.startStr ++ " - " ++ e.summary ++ nl

/-- The `for event in events: output += ...` accumulation. -/
def renderAgentLines : List CalEvent → String
  | [] => ""
  | e :: rest => renderAgentLine e ++ renderAgentLines rest

/-- One output line of `GoogleCalendarService.list_events`:
`f"- {start}: {event['summary']}\n"`. -/
def renderServiceLine (e : CalEvent) : String :=
  "- " ++ e.startStr ++ ": " ++ e.summary ++ nl

def renderServiceLines : List CalEvent → String
  | [] => ""
  | e :: rest => renderServiceLine e ++ renderServiceLines rest

/-- `agent.py get_calendar_events(days)`: the Google API is queried with
`maxResults=10` over the `[now, now+days]` window; honouring its contract
the collaborator hands back the first 10 of the window's events ordered by
start time (`eventsInWindow.take 10`). An empty result yields the fixed
string, otherwise the header plus one line per event. -/
def get_calendar_events (eventsInWindow : List CalEvent) : String :=
  if (eventsInWindow.take 10).isEmpty then "No upcoming events found."
  else "Upcoming events:" ++ nl ++ renderAgentLines (eventsInWindow.take 10)

/-- `GoogleCalendarService.list_events(max_results)` (default 10): same
shape, with the upcoming events truncated at `max_results` by the API. -/
def list_events (upcoming : List CalEvent) (max_results : Nat) : String :=
  if (upcoming.take max_results).isEmpty then "No upcoming events found."
  else "Upcoming events:" ++ nl
    ++ renderServiceLines (upcoming.take max_results)

/-- Number of newline characters in a string; each rendered event line
ends in exactly one, so this counts described events (plus the header). -/
def countNL (s : String) : Nat :=
  s.toList.countP (fun c => c = Char.ofNat 10)

theorem countNL_append (a b : String) :
    countNL (a ++ b) = countNL a + countNL b := by
  simp [countNL, String.toList, String.data_append, List.countP_append]

theorem countNL_renderAgentLine (e : CalEvent)
    (h1 : countNL e.startStr = 0) (h2 : countNL e.summary = 0) :
    countNL (renderAgentLine e) = 1 := by
  simp [renderAgentLine, countNL_append, h1, h2]
  decide

theorem countNL_renderServiceLine (e : CalEvent)
    (h1 : countNL e.startStr = 0) (h2 : countNL e.summary = 0) :
    countNL (renderServiceLine e) = 1 := by
  simp [renderServiceLine, countNL_append, h1, h2]
  decide

theorem countNL_renderAgentLines (evs : List CalEvent)
    (h : ∀ e ∈ evs, countNL e.startStr = 0 ∧ countNL e.summary = 0) :
    countNL (renderAgentLines evs) = evs.length := by
  induction evs with
  | nil => decide
  | cons e rest ih =>
    have he := h e (by simp)
    have hr : ∀ x ∈ rest, countNL x.startStr = 0 ∧ countNL x.summary = 0 :=
      fun x hx => h x (by simp [hx])
    simp [renderAgentLines, countNL_append,
      countNL_renderAgentLine e he.1 he.2, ih hr]
    omega

theorem countNL_renderServiceLines (evs : List CalEvent)
    (h : ∀ e ∈ evs, countNL e.startStr = 0 ∧ countNL e.summary = 0) :
    countNL (renderServiceLines evs) = evs.length := by
  induction evs with
  | nil => decide
  | cons e rest ih =>
    have he := h e (by simp)
    have hr : ∀ x ∈ rest, countNL x.startStr = 0 ∧ countNL x.summary = 0 :=
      fun x hx => h x (by simp [hx])
    simp [renderServiceLines, countNL_append,
      countNL_renderServiceLine e he.1 he.2, ih hr]
    omega

/-! ### Claim theorems C9 – C10 (C9's are above, next to its model) -/

/-- C10: for events whose rendered fields are newline-free, the calendar
listing of `agent.py` (and `list_events` with its default `max_results` of
10) emits the fixed string on an empty window and otherwise at most 11
newlines — one for the header and one per event, so at most 10 events are
described no matter how many fall in the window; for a non-empty window
the count is exactly `min 10 (number of events) + 1`. -/
theorem c10_at_most_ten_events (eventsInWindow : List CalEvent)
    (hclean : ∀ e ∈ eventsInWindow,
        countNL e.startStr = 0 ∧ countNL e.summary = 0) :
    (eventsInWindow = [] →
      get_calendar_events eventsInWindow = "No upcoming events found."
      ∧ list_events eventsInWindow 10 = "No upcoming events found.")
    ∧ countNL (get_calendar_events eventsInWindow) ≤ 11
    ∧ countNL (list_events eventsInWindow 10) ≤ 11
    ∧ (eventsInWindow ≠ [] →
        countNL (get_calendar_events eventsInWindow)
          = min 10 eventsInWindow.length + 1) := by
  have htake : ∀ e ∈ eventsInWindow.take 10,
      countNL e.startStr = 0 ∧ countNL e.summary = 0 :=
    fun e he => hclean e (List.take_subset 10 eventsInWindow he)
  have hAgent := countNL_renderAgentLines (eventsInWindow.take 10) htake
  have hService := countNL_renderServiceLines (eventsInWindow.take 10) htake
  have hlen : (eventsInWindow.take 10).length = min 10 eventsInWindow.length :=
    List.length_take 10 eventsInWindow
  have hbound : (eventsInWindow.take 10).length ≤ 10 := by
    rw [hlen]; exact Nat.min_le_left 10 eventsInWindow.length
  have hheader : countNL "Upcoming events:" = 0 := by decide
  have hnl : countNL nl = 1 := by decide
  have hnone : countNL "No upcoming events found." = 0 := by decide
  refine ⟨?_, ?_, ?_, ?_⟩
  · intro h
    subst h
    exact ⟨rfl, rfl⟩
  · unfold get_calendar_events
    by_cases hemp : (eventsInWindow.take 10).isEmpty
    · simp [hemp, hnone]
    · rw [if_neg hemp, countNL_append, countNL_append, hheader, hnl, hAgent]
      omega
  · unfold list_events
    by_cases hemp : (eventsInWindow.take 10).isEmpty
    · simp [hemp, hnone]
    · rw [if_neg hemp, countNL_append, countNL_append, hheader, hnl, hService]
      omega
  · intro hne
    have hemp : (eventsInWindow.take 10).isEmpty = false := by
      rw [List.isEmpty_eq_false_iff_exists_mem]
      rcases eventsInWindow with _ | ⟨e, rest⟩
      · exact absurd rfl hne
      · exact ⟨e, by simp⟩
    unfold get_calendar_events
    rw [hemp]
    simp only [Bool.false_eq_true, if_false]
    rw [countNL_append, countNL_append, hheader, hnl, hAgent, hlen]
    omega

/-- Twelve identical events, more than the listing cap, for the C10
witness. -/
def manyEvents : List CalEvent :=
  List.replicate 12 { startStr := "2025-01-01 10:00", summary := "standup" }

/-- Witness for C10 at a twelve-event window. -/
theorem c10_at_most_ten_events_witness :
    (manyEvents = [] →
      get_calendar_events manyEvents = "No upcoming events found."
      ∧ list_events manyEvents 10 = "No upcoming events found.")
    ∧ countNL (get_calendar_events manyEvents) ≤ 11
    ∧ countNL (list_events manyEvents 10) ≤ 11
    ∧ (manyEvents ≠ [] →
        countNL (get_calendar_events manyEvents)
          = min 10 manyEvents.length + 1) :=
  c10_at_most_ten_events manyEvents (by decide)

end ChatRepo
